import Mathlib

/-!
Verification development for the Zenload download-orchestration subsystem
(`src/utils/download_manager.py`, `src/bot.py`).

The Python code is shallowly embedded: each method becomes a pure Lean
function over an explicit state, with every external effect (gateway calls,
filesystem, the extraction service) driven by an explicit environment value
that enumerates the outcomes the collaborator can produce.  Python `dict`s
become association lists, `asyncio.PriorityQueue` is embedded through the
CPython `heapq` push algorithm it delegates to (including the fact that
comparing two tuples whose first components are equal compares the second
components, which raises `TypeError` for `DownloadWorker` instances), and
wall-clock times are modelled in milliseconds as naturals.
-/

namespace Zenload

/-! ## ProgressPump: `DownloadWorker.update_status` (lines 43-66)

`update_status` keeps `_last_status : Optional[str]`, `_last_progress :
Optional[int]` and `_last_update_time` on the worker, throttles to one edit
per `_update_interval` (0.5 s, here 500 ms), skips duplicate
`(text, progress)` renders, and classifies edit failures. -/

/-- `self._update_interval = 0.5` seconds, in milliseconds. -/
def update_interval : Nat := 500

/-- The mutable fields of `DownloadWorker` read and written by
`update_status`: `_last_status`, `_last_progress`, `_last_update_time`. -/
structure PumpState where
  lastStatus : Option String
  lastProgress : Option Int
  lastUpdateTime : Nat
deriving DecidableEq, Repr

/-- Worker state as reset at the start of `process_download`
(lines 111-116): `_last_status = None`, `_last_progress = None`,
`_last_update_time = 0`. -/
def PumpState.init : PumpState := ⟨none, none, 0⟩

/-- Outcome of one `message.edit_text` gateway call, as wrapped in
`asyncio.wait_for(..., timeout=2.0)`:  it may succeed, time out, fail with
`BadRequest` whose text contains "Message is not modified", fail with any
other `BadRequest`, or fail with some other exception. -/
inductive EditOutcome
  | ok
  | timedOut
  | notModified
  | badRequestOther
  | otherExn
deriving DecidableEq, Repr

/-- One progress event reaching `update_status`, together with the
behaviour the gateway would exhibit if the edit is attempted. -/
structure UpdEvent where
  time : Nat
  statusKey : String
  progress : Int
  outcome : EditOutcome
deriving DecidableEq, Repr

/-- The exceptions the embedded gateway call can raise.  All of them are
Python `Exception`s (task cancellation, a `BaseException`, is outside this
model). -/
inductive PumpExn
  | timeoutError
  | badRequest (notModified : Bool)
  | otherError
deriving DecidableEq, Repr

/-- Result of the raw `message.edit_text` call for a given outcome. -/
def edit_text_result : EditOutcome → Except PumpExn Unit
  | .ok => .ok ()
  | .timedOut => .error .timeoutError
  | .notModified => .error (.badRequest true)
  | .badRequestOther => .error (.badRequest false)
  | .otherExn => .error .otherError

/-- What `update_status` did with one event. -/
inductive UpdAction
  | skippedThrottle
  | skippedDup
  | rendered
  | editFailed
deriving DecidableEq, Repr

/-- Observable result of one `update_status` call. -/
structure UpdRes where
  action : UpdAction
  /-- true iff `message.edit_text` was actually invoked. -/
  editCalled : Bool
  /-- `logger.error` was called. -/
  errorLogged : Bool
  /-- `logger.debug` was called (timed-out edit, line 61). -/
  debugLogged : Bool
  /-- exception propagating to the caller of `update_status`. -/
  raised : Option PumpExn
deriving DecidableEq, Repr

/-- The inner `try` of lines 55-64: `TimeoutError` is caught and logged at
debug level; `BadRequest` is caught and logged as an error unless its text
contains "Message is not modified"; any other exception escapes to the
outer handler.  Returns (state, action, errorLogged, debugLogged,
uncaught exception). -/
def edit_attempt (st : PumpState) (newText : String) (e : UpdEvent) :
    PumpState × UpdAction × Bool × Bool × Option PumpExn :=
  match edit_text_result e.outcome with
  | .ok () => (⟨some newText, some e.progress, e.time⟩, .rendered, false, false, none)
  | .error .timeoutError => (st, .editFailed, false, true, none)
  | .error (.badRequest nm) => (st, .editFailed, !nm, false, none)
  | .error .otherError => (st, .editFailed, false, false, some .otherError)

/-- `DownloadWorker.update_status` (lines 43-66).  The outer
`except Exception` (line 65) catches whatever escaped the inner handlers
and logs it, so nothing is re-raised. -/
def update_status (loc : String → Int → String) (st : PumpState) (e : UpdEvent) :
    PumpState × UpdRes :=
  if e.time - st.lastUpdateTime < update_interval then
    (st, ⟨.skippedThrottle, false, false, false, none⟩)
  else
    let newText := loc e.statusKey e.progress
    if st.lastStatus = some newText ∧ st.lastProgress = some e.progress then
      (st, ⟨.skippedDup, false, false, false, none⟩)
    else
      match edit_attempt st newText e with
      | (st', act, errLog, dbgLog, uncaught) =>
        match uncaught with
        | none => (st', ⟨act, true, errLog, dbgLog, none⟩)
        | some _ => (st', ⟨act, true, true, dbgLog, none⟩)

/-- A successful render: the values actually written to the status message
by a successful `edit_text`, with the capture time recorded in
`_last_update_time`. -/
structure Render where
  time : Nat
  statusKey : String
  progress : Int
  text : String
deriving DecidableEq, Repr

/-- The successful renders produced by feeding a sequence of progress
events through `update_status`, threading the worker state. -/
def run_pump (loc : String → Int → String) : PumpState → List UpdEvent → List Render
  | _, [] => []
  | st, e :: es =>
    match update_status loc st e with
    | (st', r) =>
      if r.action = .rendered then
        ⟨e.time, e.statusKey, e.progress, loc e.statusKey e.progress⟩ :: run_pump loc st' es
      else
        run_pump loc st' es

/-- Relation between consecutive successful renders claimed by the spec:
never identical `(status_key, percent)`, and at least the throttle
interval apart. -/
def RenderStep (a b : Render) : Prop :=
  ¬(b.statusKey = a.statusKey ∧ b.progress = a.progress) ∧
    a.time + update_interval ≤ b.time

/-- Invariant tying the worker state to the last successful render. -/
def GoodState (loc : String → Int → String) (r : Render) (st : PumpState) : Prop :=
  st.lastStatus = some r.text ∧ st.lastProgress = some r.progress ∧
    st.lastUpdateTime = r.time ∧ r.text = loc r.statusKey r.progress

lemma update_status_spec (loc : String → Int → String)
    (st : PumpState) (e : UpdEvent) :
    ((update_status loc st e).2.action = .rendered ∧
      (update_status loc st e).1 =
        ⟨some (loc e.statusKey e.progress), some e.progress, e.time⟩ ∧
      ¬(e.time - st.lastUpdateTime < update_interval) ∧
      ¬(st.lastStatus = some (loc e.statusKey e.progress) ∧
          st.lastProgress = some e.progress)) ∨
    ((update_status loc st e).2.action ≠ .rendered ∧
      (update_status loc st e).1 = st) := by
  unfold update_status
  dsimp only
  split
  · right; exact ⟨by simp, rfl⟩
  · split
    · right; exact ⟨by simp, rfl⟩
    · unfold edit_attempt
      cases e.outcome <;> simp_all [edit_text_result]

lemma run_pump_cons (loc : String → Int → String) (st : PumpState)
    (e : UpdEvent) (es : List UpdEvent) :
    run_pump loc st (e :: es) =
      if (update_status loc st e).2.action = .rendered then
        ⟨e.time, e.statusKey, e.progress, loc e.statusKey e.progress⟩ ::
          run_pump loc (update_status loc st e).1 es
      else
        run_pump loc (update_status loc st e).1 es := by
  rw [run_pump]

lemma run_pump_chain_good (loc : String → Int → String) :
    ∀ (events : List UpdEvent) (st : PumpState) (r : Render),
      GoodState loc r st → List.Chain' RenderStep (r :: run_pump loc st events)
  | [], _, _, _ => by simp [run_pump]
  | e :: es, st, r, hg => by
    rw [run_pump_cons]
    rcases update_status_spec loc st e with ⟨hr, hst', hthr, hdup⟩ | ⟨hr, hst'⟩
    · simp only [hr, if_pos rfl]
      obtain ⟨hs, hp, ht, htxt⟩ := hg
      refine List.Chain'.cons ?_ ?_
      · constructor
        · rintro ⟨hk, hpr⟩
          simp only at hk hpr
          exact hdup ⟨by rw [hs, htxt, ← hk, ← hpr], by rw [hp, ← hpr]⟩
        · simp only
          rw [ht] at hthr
          unfold update_interval at hthr ⊢
          omega
      · exact run_pump_chain_good loc es _
          ⟨e.time, e.statusKey, e.progress, loc e.statusKey e.progress⟩
          (by rw [hst']; exact ⟨rfl, rfl, rfl, rfl⟩)
    · rw [if_neg hr, hst']
      exact run_pump_chain_good loc es st r hg

lemma run_pump_chain_fresh (loc : String → Int → String) :
    ∀ (events : List UpdEvent) (st : PumpState),
      List.Chain' RenderStep (run_pump loc st events)
  | [], _ => by simp [run_pump]
  | e :: es, st => by
    rw [run_pump_cons]
    rcases update_status_spec loc st e with ⟨hr, hst', _, _⟩ | ⟨hr, hst'⟩
    · simp only [hr, if_pos rfl]
      exact run_pump_chain_good loc es _
        ⟨e.time, e.statusKey, e.progress, loc e.statusKey e.progress⟩
        (by rw [hst']; exact ⟨rfl, rfl, rfl, rfl⟩)
    · rw [if_neg hr, hst']
      exact run_pump_chain_fresh loc es st

/-- C6: for every sequence of progress events of one task, the
status-update pipeline issues at most one gateway edit per 500 ms throttle
interval (successive successful renders are at least `update_interval`
apart, the first excepted) and never two consecutive renders with
identical `(status_key, percent)`; an update arriving within the interval
of the last successful render, or whose rendered text and percent equal
the last rendered values, is skipped without any gateway call. -/
theorem C6_progress_throttle_dedup (loc : String → Int → String)
    (events : List UpdEvent) (st : PumpState) (e : UpdEvent) :
    List.Chain' RenderStep (run_pump loc PumpState.init events) ∧
    (e.time - st.lastUpdateTime < update_interval →
      (update_status loc st e).2 = ⟨.skippedThrottle, false, false, false, none⟩) ∧
    (¬ e.time - st.lastUpdateTime < update_interval →
      st.lastStatus = some (loc e.statusKey e.progress) →
      st.lastProgress = some e.progress →
      (update_status loc st e).2 = ⟨.skippedDup, false, false, false, none⟩) := by
  refine ⟨run_pump_chain_fresh loc events PumpState.init, ?_, ?_⟩
  · intro h
    unfold update_status
    simp [h]
  · intro h h1 h2
    unfold update_status
    simp [h, h1, h2]

/-- C6 witness: a concrete localization function and event sequence, with a
concrete skipped-by-throttle event and a concrete skipped-as-duplicate
event. -/
theorem C6_progress_throttle_dedup_witness :
    List.Chain' RenderStep
      (run_pump (fun k p => k ++ toString p) PumpState.init
        [⟨1000, "status_sending", 10, .ok⟩, ⟨1100, "status_sending", 20, .ok⟩,
         ⟨1600, "status_sending", 20, .badRequestOther⟩,
         ⟨2200, "status_sending", 90, .ok⟩]) ∧
    (1100 - (1000 : Nat) < update_interval →
      (update_status (fun k p => k ++ toString p)
          ⟨some "status_sending10", some 10, 1000⟩
          ⟨1100, "status_sending", 20, .ok⟩).2 =
        ⟨.skippedThrottle, false, false, false, none⟩) ∧
    (¬ 1600 - (1000 : Nat) < update_interval →
      (⟨some "status_sending10", some 10, 1000⟩ : PumpState).lastStatus =
        some ((fun k p => k ++ toString p) "status_sending" (10 : Int)) →
      (⟨some "status_sending10", some 10, 1000⟩ : PumpState).lastProgress =
        some (10 : Int) →
      (update_status (fun k p => k ++ toString p)
          ⟨some "status_sending10", some 10, 1000⟩
          ⟨1600, "status_sending", 10, .ok⟩).2 =
        ⟨.skippedDup, false, false, false, none⟩) := by
  refine ⟨(C6_progress_throttle_dedup (fun k p => k ++ toString p) _
      ⟨some "status_sending10", some 10, 1000⟩ ⟨1100, "status_sending", 20, .ok⟩).1, ?_, ?_⟩
  · exact (C6_progress_throttle_dedup (fun k p => k ++ toString p) []
      ⟨some "status_sending10", some 10, 1000⟩ ⟨1100, "status_sending", 20, .ok⟩).2.1
  · exact (C6_progress_throttle_dedup (fun k p => k ++ toString p) []
      ⟨some "status_sending10", some 10, 1000⟩ ⟨1600, "status_sending", 10, .ok⟩).2.2

/-- C9: for every status-message edit attempted by the progress pipeline,
a failure classified as content-identical ("Message is not modified") is
not logged as an error and execution continues; every other edit failure
(timeout included) is logged (timeout at debug level, the rest as errors)
and never aborts the task: `update_status` raises nothing to its
caller. -/
theorem C9_edit_failures_never_abort (loc : String → Int → String)
    (st : PumpState) (e : UpdEvent) :
    (update_status loc st e).2.raised = none ∧
    (e.outcome = .notModified → (update_status loc st e).2.errorLogged = false) ∧
    ((update_status loc st e).2.editCalled = true → e.outcome = .timedOut →
      (update_status loc st e).2.debugLogged = true) ∧
    ((update_status loc st e).2.editCalled = true →
      (e.outcome = .badRequestOther ∨ e.outcome = .otherExn) →
      (update_status loc st e).2.errorLogged = true) := by
  unfold update_status
  dsimp only
  split
  · simp
  · split
    · simp
    · unfold edit_attempt
      cases e.outcome <;> simp [edit_text_result]

/-- C9 witness: a concrete "Message is not modified" failure and a
concrete timed-out edit. -/
theorem C9_edit_failures_never_abort_witness :
    (update_status (fun k _ => k) PumpState.init ⟨5000, "s", 1, .notModified⟩).2.raised
      = none ∧
    ((⟨5000, "s", 1, .notModified⟩ : UpdEvent).outcome = .notModified →
      (update_status (fun k _ => k) PumpState.init
        ⟨5000, "s", 1, .notModified⟩).2.errorLogged = false) ∧
    ((update_status (fun k _ => k) PumpState.init
        ⟨6000, "s", 2, .timedOut⟩).2.editCalled = true →
      (⟨6000, "s", 2, .timedOut⟩ : UpdEvent).outcome = .timedOut →
      (update_status (fun k _ => k) PumpState.init
        ⟨6000, "s", 2, .timedOut⟩).2.debugLogged = true) := by
  refine ⟨(C9_edit_failures_never_abort (fun k _ => k) PumpState.init
      ⟨5000, "s", 1, .notModified⟩).1,
    (C9_edit_failures_never_abort (fun k _ => k) PumpState.init
      ⟨5000, "s", 1, .notModified⟩).2.1,
    (C9_edit_failures_never_abort (fun k _ => k) PumpState.init
      ⟨6000, "s", 2, .timedOut⟩).2.2.1⟩

/-! ## DownloadWorker.process_download (lines 102-203)

The worker runs one job end-to-end.  The `try` body fetches
(`downloader.download`), then delivers (`reply_audio` / `reply_video`);
`except DownloadError` replies with the classified message,
`except Exception` with the generic one; `CancelledError`, a
`BaseException` since Python 3.8, is caught by neither.  The `finally`
block stops the status task, unlinks `file_path` when it was set, and
deletes the status message, each failure merely logged. -/

/-- Outcome of `await downloader.download(url, format_id)` (line 128):
it returns a local file path (having created that file), raises a
classified `DownloadError`, raises any other exception, or the task is
cancelled at this suspension point. -/
inductive DlResult
  | downloaded (path : String)
  | failDownloadError (msg : String)
  | failOther
  | cancelled
deriving DecidableEq, Repr

/-- Outcome of the delivery call `reply_audio` / `reply_video`
(lines 135-157). -/
inductive SendResult
  | sendOk
  | sendRaised
  | sendCancelled
deriving DecidableEq, Repr

/-- Collaborator behaviour for one worker run: what the extraction
service, the delivery call, the two failure replies (lines 162, 168), the
file unlink (line 193) and the status-message delete (line 200) do. -/
structure WorkerEnv where
  dl : DlResult
  send : SendResult
  replyFailOk : Bool
  replyGenericOk : Bool
  unlinkOk : Bool
  deleteMsgOk : Bool
deriving DecidableEq, Repr

/-- User-visible messages the worker can send on failure paths. -/
inductive MsgKind
  | downloadFailed (error : String)
  | errorOccurred
deriving DecidableEq, Repr

/-- Observable side effects of one worker run, in program order. -/
inductive Eff
  | startStatusTask
  | statusUpdate (key : String) (progress : Int)
  | downloadCall
  | sendFileCall
  | replyText (m : MsgKind)
  | stopStatusTask
  | unlinkFile (p : String)
  | deleteStatusMsg
  | acquireHostSlot (host : String)
deriving DecidableEq, Repr

/-- Cleanup failures that are logged by the `finally` block. -/
inductive CleanupLog
  | unlinkFailed (p : String)
  | deleteMsgFailed
deriving DecidableEq, Repr

/-- Terminal state of a task, per the spec's state machine. -/
inductive Terminal
  | completed
  | failed
  | cancelled
deriving DecidableEq, Repr

/-- Exceptions that can leave the worker. -/
inductive WorkerExn
  | cancelledError
  | gatewayError
deriving DecidableEq, Repr

/-- Result of one worker run: effects in order, the resulting filesystem,
the terminal state, cleanup-failure logs, and any exception propagating
past `process_download`. -/
structure WorkerRun where
  effs : List Eff
  fs : Finset String
  terminal : Terminal
  logs : List CleanupLog
  raised : Option WorkerExn
deriving DecidableEq

/-- The `try` body together with the two `except` handlers
(lines 107-171): returns the effects so far, the filesystem after the
extraction call, `file_path` (set only when `download` returned), the
exception still pending when control reaches `finally`, and the terminal
state. -/
def try_phase (env : WorkerEnv) (fs : Finset String) :
    List Eff × Finset String × Option String × Option WorkerExn × Terminal :=
  let e0 : List Eff := [.startStatusTask, .statusUpdate "status_getting_info" 0, .downloadCall]
  match env.dl with
  | .downloaded p =>
    let fs1 := insert p fs
    match env.send with
    | .sendOk =>
      (e0 ++ [.statusUpdate "status_sending" 0, .sendFileCall,
        .statusUpdate "status_sending" 100], fs1, some p, none, .completed)
    | .sendRaised =>
      (e0 ++ [.statusUpdate "status_sending" 0, .sendFileCall, .replyText .errorOccurred],
        fs1, some p, if env.replyGenericOk then none else some .gatewayError, .failed)
    | .sendCancelled =>
      (e0 ++ [.statusUpdate "status_sending" 0, .sendFileCall], fs1, some p,
        some .cancelledError, .cancelled)
  | .failDownloadError m =>
    (e0 ++ [.replyText (.downloadFailed m)], fs, none,
      if env.replyFailOk then none else some .gatewayError, .failed)
  | .failOther =>
    (e0 ++ [.replyText .errorOccurred], fs, none,
      if env.replyGenericOk then none else some .gatewayError, .failed)
  | .cancelled =>
    (e0, fs, none, some .cancelledError, .cancelled)

/-- `DownloadWorker.process_download` (lines 102-203): the `try` phase
followed by the `finally` block, which always stops the status task,
unlinks `file_path` if it was set (line 191-196, failure logged), deletes
the status message (lines 199-203, failure logged), and then lets any
pending exception continue to propagate. -/
def DownloadWorker.process_download (env : WorkerEnv) (fs : Finset String) : WorkerRun :=
  match try_phase env fs with
  | (effs0, fs1, filePath, pending, term) =>
    let effs1 := effs0 ++ [.stopStatusTask]
    let step2 : List Eff × Finset String × List CleanupLog :=
      match filePath with
      | some p =>
        (effs1 ++ [.unlinkFile p],
          if env.unlinkOk then fs1.erase p else fs1,
          if env.unlinkOk then [] else [.unlinkFailed p])
      | none => (effs1, fs1, [])
    match step2 with
    | (effs2, fs2, logs2) =>
      { effs := effs2 ++ [.deleteStatusMsg]
        fs := fs2
        terminal := term
        logs := logs2 ++ if env.deleteMsgOk then [] else [.deleteMsgFailed]
        raised := pending }

/-- Count of user-visible messages sent by the worker's handlers. -/
def userMsgCount (effs : List Eff) : Nat :=
  (effs.filter fun e => match e with | .replyText _ => true | _ => false).length

/-- C5: on every exit path of `DownloadWorker.process_download`
(success, classified failure, unclassified failure, cancellation) the
`finally` cleanup runs: the progress pump is stopped, the downloaded
file (when one was returned) is unlinked and — when the unlink succeeds —
no longer exists afterwards, the status message is deleted, and cleanup
failures are logged but never change what the worker raises or its
terminal state. -/
theorem C5_cleanup_every_exit_path (env : WorkerEnv) (fs : Finset String) :
    Eff.stopStatusTask ∈ (DownloadWorker.process_download env fs).effs ∧
    Eff.deleteStatusMsg ∈ (DownloadWorker.process_download env fs).effs ∧
    (∀ p, env.dl = .downloaded p →
      Eff.unlinkFile p ∈ (DownloadWorker.process_download env fs).effs) ∧
    (∀ p, env.dl = .downloaded p → env.unlinkOk = true →
      p ∉ (DownloadWorker.process_download env fs).fs) ∧
    (env.unlinkOk = false → env.dl ≠ .cancelled → env.dl ≠ .failOther →
      (∀ m, env.dl ≠ .failDownloadError m) →
      (DownloadWorker.process_download env fs).logs ≠ []) ∧
    (∀ a b : Bool,
      (DownloadWorker.process_download { env with unlinkOk := a, deleteMsgOk := b } fs).raised
        = (DownloadWorker.process_download env fs).raised ∧
      (DownloadWorker.process_download { env with unlinkOk := a, deleteMsgOk := b } fs).terminal
        = (DownloadWorker.process_download env fs).terminal) := by
  rcases env with ⟨dl, send, rf, rg, u, d⟩
  cases dl <;> cases send <;>
    simp [DownloadWorker.process_download, try_phase, Finset.not_mem_erase] <;>
    cases u <;> cases d <;> simp

/-- C5 witness: the completed path with a concrete file. -/
theorem C5_cleanup_every_exit_path_witness :
    Eff.stopStatusTask ∈
      (DownloadWorker.process_download
        ⟨.downloaded "tmp.mp4", .sendOk, true, true, true, true⟩ ∅).effs ∧
    ((⟨.downloaded "tmp.mp4", .sendOk, true, true, true, true⟩ : WorkerEnv).dl
        = .downloaded "tmp.mp4" →
      (⟨.downloaded "tmp.mp4", .sendOk, true, true, true, true⟩ : WorkerEnv).unlinkOk = true →
      "tmp.mp4" ∉
        (DownloadWorker.process_download
          ⟨.downloaded "tmp.mp4", .sendOk, true, true, true, true⟩ ∅).fs) :=
  ⟨(C5_cleanup_every_exit_path
      ⟨.downloaded "tmp.mp4", .sendOk, true, true, true, true⟩ ∅).1,
    (C5_cleanup_every_exit_path
      ⟨.downloaded "tmp.mp4", .sendOk, true, true, true, true⟩ ∅).2.2.2.1 "tmp.mp4"⟩

/-- C7 counterexample: when `downloader.download` raises a classified
`DownloadError` and the failure-notification `reply_text` (line 162)
itself raises, that gateway exception propagates past
`process_download` uncaught — the `except DownloadError` handler is not
itself guarded — refuting "no exception propagates past the worker
uncaught". -/
theorem C7_counterexample :
    (DownloadWorker.process_download
      ⟨.failDownloadError "private content", .sendOk, false, true, true, true⟩ ∅).raised
        = some .gatewayError ∧
    ¬ (DownloadWorker.process_download
      ⟨.failDownloadError "private content", .sendOk, false, true, true, true⟩ ∅).raised
        = none := by
  constructor <;> decide

/-- C7 amended: for every collaborator exception raised during
extraction or delivery, the failure is caught at the worker boundary and
mapped to exactly one terminal state plus exactly one user-visible
message (classified for `DownloadError`, generic otherwise) and nothing
propagates past the worker — provided the failure-notification reply
itself succeeds and the task is not cancelled. -/
theorem C7_amended_worker_boundary (env : WorkerEnv) (fs : Finset String)
    (hf : env.replyFailOk = true) (hg : env.replyGenericOk = true)
    (hdl : env.dl ≠ .cancelled) (hsend : env.send ≠ .sendCancelled) :
    (DownloadWorker.process_download env fs).raised = none ∧
    ((DownloadWorker.process_download env fs).terminal = .failed →
      userMsgCount (DownloadWorker.process_download env fs).effs = 1) ∧
    ((DownloadWorker.process_download env fs).terminal = .completed →
      userMsgCount (DownloadWorker.process_download env fs).effs = 0) ∧
    (∀ m, env.dl = .failDownloadError m →
      Eff.replyText (.downloadFailed m) ∈ (DownloadWorker.process_download env fs).effs) ∧
    (env.dl = .failOther →
      Eff.replyText .errorOccurred ∈ (DownloadWorker.process_download env fs).effs) := by
  rcases env with ⟨dl, send, rf, rg, u, d⟩
  dsimp only at hf hg hdl hsend
  subst hf hg
  cases dl <;> cases send <;>
    simp_all [DownloadWorker.process_download, try_phase, userMsgCount]

/-- C7 amended witness: a classified extraction failure whose
notification succeeds is mapped to Failed plus the classified message,
with nothing raised. -/
theorem C7_amended_worker_boundary_witness :
    (DownloadWorker.process_download
      ⟨.failDownloadError "auth required", .sendOk, true, true, true, true⟩ ∅).raised
        = none ∧
    ((DownloadWorker.process_download
        ⟨.failDownloadError "auth required", .sendOk, true, true, true, true⟩ ∅).terminal
          = .failed →
      userMsgCount (DownloadWorker.process_download
        ⟨.failDownloadError "auth required", .sendOk, true, true, true, true⟩ ∅).effs = 1) :=
  ⟨(C7_amended_worker_boundary
      ⟨.failDownloadError "auth required", .sendOk, true, true, true, true⟩ ∅
      rfl rfl (by decide) (by decide)).1,
    (C7_amended_worker_boundary
      ⟨.failDownloadError "auth required", .sendOk, true, true, true, true⟩ ∅
      rfl rfl (by decide) (by decide)).2.1⟩

/-! ## DownloadManager (lines 205-361)

`active_downloads : Dict[int, Dict[str, Task]]` becomes an association
list from user id to an association list from url to a done flag (the
pruning at lines 302-308 keeps entries whose task is not done).  The
`asyncio.PriorityQueue` delegates to CPython `heapq`: its backing list
and `heappush` (append, then `_siftdown`) are embedded below, with the
crucial detail that pushing `(priority, worker, args)` tuples compares
the `DownloadWorker` instances when the integer priorities tie —
`DownloadWorker` defines no ordering, so that comparison raises
`TypeError`, after the item was already appended. -/

/-- One entry of the priority queue: the integer priority and the fresh
`DownloadWorker` object created at line 320 (workers are created one per
submission, so their identities are distinct). -/
structure QItem where
  priority : Nat
  workerId : Nat
deriving DecidableEq, Repr

inductive PyError
  | typeError
deriving DecidableEq, Repr

/-- Python `<` on two queue tuples `(priority, worker, args)`: unequal
integer priorities decide; on a tie CPython moves to the second
components, two distinct `DownloadWorker` instances, whose comparison
raises `TypeError: '<' not supported between instances of
'DownloadWorker'`. -/
def qlt (a b : QItem) : Except PyError Bool :=
  if a.priority < b.priority then .ok true
  else if b.priority < a.priority then .ok false
  else .error .typeError

/-- CPython `heapq._siftdown(heap, startpos, pos)`: walk `newitem` up
from `pos`, shifting larger parents down; mutations made before a
comparison raises persist (the in-place list is returned together with
the error).  The `fuel` argument only bounds the recursion: `pos`
strictly decreases at each step, so `fuel = pos` never runs out. -/
def siftdownFuel : Nat → List QItem → QItem → Nat → Nat → List QItem × Option PyError
  | 0, heap, newitem, _, pos => (heap.set pos newitem, none)
  | fuel + 1, heap, newitem, startpos, pos =>
    if startpos < pos then
      let parentpos := (pos - 1) / 2
      let parent := heap.getD parentpos ⟨0, 0⟩
      match qlt newitem parent with
      | .error e => (heap, some e)
      | .ok true => siftdownFuel fuel (heap.set pos parent) newitem startpos parentpos
      | .ok false => (heap.set pos newitem, none)
    else (heap.set pos newitem, none)

def siftdown (heap : List QItem) (newitem : QItem) (startpos pos : Nat) :
    List QItem × Option PyError :=
  siftdownFuel pos heap newitem startpos pos

/-- CPython `heapq.heappush`: `heap.append(item)` then sift; on a raise
the appended item stays in the backing list (this is what
`asyncio.PriorityQueue.put_nowait` leaves behind when the comparison
raises). -/
def heappush (heap : List QItem) (item : QItem) : List QItem × Option PyError :=
  let h := heap ++ [item]
  siftdown h item 0 (h.length - 1)

/-- `user_id → {url → task-done flag}`. -/
abbrev ActiveMap := List (Nat × List (String × Bool))

/-- The mutable state of `DownloadManager` relevant to the claims. -/
structure MState where
  active : ActiveMap
  heap : List QItem
  unfinished : Nat
  nextWorkerId : Nat
  maxDownloadsPerUser : Nat
  maxConcurrentDownloads : Nat
  initialized : Bool
  processorRunning : Bool
  sessionOpen : Bool
  rateLimits : List (String × Nat)
deriving DecidableEq, Repr

/-- `DownloadManager.__init__` (lines 207-230): everything empty or off;
`rate_limits` is an empty per-host table. -/
def DownloadManager.freshState (maxConcurrent maxPerUser : Nat) : MState :=
  { active := []
    heap := []
    unfinished := 0
    nextWorkerId := 0
    maxDownloadsPerUser := maxPerUser
    maxConcurrentDownloads := maxConcurrent
    initialized := false
    processorRunning := false
    sessionOpen := false
    rateLimits := [] }

/-- `_ensure_initialized` (lines 247-271): create session and queue,
start the queue-processor task. -/
def DownloadManager.ensure_initialized (st : MState) : MState :=
  if st.initialized then st
  else { st with initialized := true, processorRunning := true, sessionOpen := true }

/-- Lines 302-308: rebuild each user's map keeping only tasks that are
not done, dropping users whose map became empty. -/
def pruneActive (a : ActiveMap) : ActiveMap :=
  (a.map fun e => (e.1, e.2.filter fun t => !t.2)).filter fun e => !e.2.isEmpty

/-- `self.active_downloads.get(user_id, {})`. -/
def activeFor (a : ActiveMap) (uid : Nat) : List (String × Bool) :=
  match a.find? fun e => e.1 == uid with
  | some e => e.2
  | none => []

/-- One submission reaching `DownloadManager.process_download`. -/
structure Submission where
  user : Nat
  url : String
deriving DecidableEq, Repr

/-- Outcome of one submission: rejected with the user-visible
`error_too_many_downloads` edit and no task created; enqueued with the
computed priority; or `download_queue.put` raised `TypeError` out of the
heap comparison. -/
inductive SubmitOutcome
  | rejected
  | enqueued (priority : Nat)
  | putRaised (priority : Nat)
deriving DecidableEq, Repr

/-- `DownloadManager.process_download` (lines 294-327): ensure
initialization, prune `active_downloads`, reject when the user's tracked
count has reached `max_downloads_per_user`, otherwise create a fresh
worker and put `(priority, worker, args)` with
`priority = len(active_downloads.get(user_id, {}))`. -/
def DownloadManager.process_download (st0 : MState) (s : Submission) :
    MState × SubmitOutcome :=
  let st := DownloadManager.ensure_initialized st0
  let a := pruneActive st.active
  let cnt := (activeFor a s.user).length
  if st.maxDownloadsPerUser ≤ cnt then
    ({ st with active := a }, .rejected)
  else
    match heappush st.heap ⟨cnt, st.nextWorkerId⟩ with
    | (heap2, none) =>
      ({ st with
          active := a
          heap := heap2
          unfinished := st.unfinished + 1
          nextWorkerId := st.nextWorkerId + 1 }, .enqueued cnt)
    | (heap2, some _) =>
      ({ st with
          active := a
          heap := heap2
          nextWorkerId := st.nextWorkerId + 1 }, .putRaised cnt)

/-- A sequence of submissions, threading the manager state. -/
def runSubmits (st : MState) : List Submission → MState × List SubmitOutcome
  | [] => (st, [])
  | s :: ss =>
    match DownloadManager.process_download st s with
    | (st1, o) =>
      match runSubmits st1 ss with
      | (st2, os) => (st2, o :: os)

lemma ensure_initialized_fields (st : MState) :
    (DownloadManager.ensure_initialized st).active = st.active ∧
    (DownloadManager.ensure_initialized st).maxDownloadsPerUser = st.maxDownloadsPerUser := by
  unfold DownloadManager.ensure_initialized
  split <;> exact ⟨rfl, rfl⟩

/-- No statement in the repository ever inserts into `active_downloads`
(lines 302-308 only rewrite or delete existing entries), so a manager
whose index is empty keeps it empty across any submission, and — as long
as `max_downloads_per_user` is positive — no submission is ever
rejected. -/
lemma process_download_active_nil (st : MState) (s : Submission)
    (h : st.active = []) (hp : 0 < st.maxDownloadsPerUser) :
    (DownloadManager.process_download st s).1.active = [] ∧
    (DownloadManager.process_download st s).1.maxDownloadsPerUser
      = st.maxDownloadsPerUser ∧
    (DownloadManager.process_download st s).2 ≠ .rejected := by
  obtain ⟨ha, hm⟩ := ensure_initialized_fields st
  rw [h] at ha
  simp only [DownloadManager.process_download, ha, hm, pruneActive, activeFor,
    List.map_nil, List.filter_nil, List.find?_nil, List.length_nil]
  rw [if_neg (by omega)]
  rcases heappush (DownloadManager.ensure_initialized st).heap
      ⟨0, (DownloadManager.ensure_initialized st).nextWorkerId⟩ with ⟨h2, e⟩
  cases e <;> simp [hm]

lemma runSubmits_active_nil (subs : List Submission) :
    ∀ (st : MState), st.active = [] → 0 < st.maxDownloadsPerUser →
      (runSubmits st subs).1.active = [] ∧
      (∀ o ∈ (runSubmits st subs).2, o ≠ .rejected) := by
  induction subs with
  | nil => intro st h _; exact ⟨h, by simp [runSubmits]⟩
  | cons s ss ih =>
    intro st h hp
    obtain ⟨h1, h2, h3⟩ := process_download_active_nil st s h hp
    rw [runSubmits]
    rcases hpd : DownloadManager.process_download st s with ⟨st1, o⟩
    rw [hpd] at h1 h2 h3
    obtain ⟨ih1, ih2⟩ := ih st1 h1 (h2 ▸ hp)
    rcases hrs : runSubmits st1 ss with ⟨st2, os⟩
    rw [hrs] at ih1 ih2
    dsimp only
    rw [hrs]
    dsimp only at h3 ⊢
    refine ⟨ih1, ?_⟩
    intro o' ho'
    rcases List.mem_cons.mp ho' with rfl | hmem
    · exact h3
    · exact ih2 o' hmem

/-- C1: `DownloadManager.process_download` is claimed to reject a
submission with the user-visible "too many concurrent downloads" message
whenever the submitting user's in-flight+queued count has reached
`max_downloads_per_user`.  In the code the count inspected is
`len(self.active_downloads.get(user_id, {}))`, but no statement in the
repository ever inserts into `active_downloads`, so from the initial
state the index stays empty across every submission sequence and no
submission is ever rejected — however many requests one user has
queued. -/
theorem C1_per_user_cap_never_rejects (maxConcurrent maxPerUser : Nat)
    (hp : 0 < maxPerUser) (subs : List Submission) :
    (∀ o ∈ (runSubmits (DownloadManager.freshState maxConcurrent maxPerUser) subs).2,
      o ≠ .rejected) ∧
    (runSubmits (DownloadManager.freshState maxConcurrent maxPerUser) subs).1.active
      = [] := by
  obtain ⟨h1, h2⟩ := runSubmits_active_nil subs
    (DownloadManager.freshState maxConcurrent maxPerUser) rfl hp
  exact ⟨h2, h1⟩

/-- C1 witness: with `max_downloads_per_user = 5`, user 42 submits six
URLs back-to-back while none has completed; per the claim the sixth must
be rejected, but no submission is rejected. -/
theorem C1_per_user_cap_never_rejects_witness :
    (∀ o ∈ (runSubmits (DownloadManager.freshState 50 5)
        [⟨42, "u1"⟩, ⟨42, "u2"⟩, ⟨42, "u3"⟩, ⟨42, "u4"⟩, ⟨42, "u5"⟩, ⟨42, "u6"⟩]).2,
      o ≠ .rejected) ∧
    (runSubmits (DownloadManager.freshState 50 5)
        [⟨42, "u1"⟩, ⟨42, "u2"⟩, ⟨42, "u3"⟩, ⟨42, "u4"⟩, ⟨42, "u5"⟩, ⟨42, "u6"⟩]).1.active
      = [] :=
  C1_per_user_cap_never_rejects 50 5 (by decide)
    [⟨42, "u1"⟩, ⟨42, "u2"⟩, ⟨42, "u3"⟩, ⟨42, "u4"⟩, ⟨42, "u5"⟩, ⟨42, "u6"⟩]

/-- C2: queued jobs are claimed to dequeue min-priority-first with FIFO
tie-breaking.  In the code every computed priority is 0 (the
`active_downloads` index is never populated), and pushing a second
`(priority, worker, args)` tuple whose priority ties one already in the
`asyncio.PriorityQueue` makes CPython compare the two `DownloadWorker`
instances, which raises `TypeError` out of `download_queue.put` — after
the tuple was appended to the backing list.  Concretely: two submissions
from the fresh manager yield `enqueued` then `putRaised`, so the FIFO
tie-break the claim describes can never happen. -/
theorem C2_tie_breaking_put_raises :
    (runSubmits (DownloadManager.freshState 50 5) [⟨1, "urlA"⟩, ⟨2, "urlB"⟩]).2
      = [.enqueued 0, .putRaised 0] ∧
    (runSubmits (DownloadManager.freshState 50 5) [⟨1, "urlA"⟩, ⟨2, "urlB"⟩]).1.heap
      = [⟨0, 0⟩, ⟨0, 1⟩] ∧
    qlt ⟨0, 1⟩ ⟨0, 0⟩ = .error .typeError := by
  constructor
  · rfl
  · constructor
    · rfl
    · rfl

/-! ## The queue processor `_process_queue` (lines 273-292) and
`cleanup` (lines 329-361). -/

/-- Job start/finish events as observed from the queue-processing
loop. -/
inductive PEv
  | start (id : Nat)
  | finish (id : Nat)
deriving DecidableEq, Repr

/-- `DownloadManager._process_queue` (lines 273-292): a single loop that
gets one item and `await`s `worker.process_download(*args)` to completion
before getting the next; `max_concurrent_downloads` is a parameter of the
manager but is never consulted by the loop, so it is carried here
unused.  The trace lists each dequeued job's start and finish in
program order. -/
def DownloadManager.process_queue_trace (maxConcurrentDownloads : Nat) :
    List Nat → List PEv
  | [] => []
  | j :: js => .start j :: .finish j :: process_queue_trace maxConcurrentDownloads js

def countStarts (evs : List PEv) : Nat :=
  (evs.filter fun e => match e with | .start _ => true | _ => false).length

def countFinishes (evs : List PEv) : Nat :=
  (evs.filter fun e => match e with | .finish _ => true | _ => false).length

lemma process_queue_trace_bound (cap : Nat) (jobs : List Nat) :
    ∀ n : Nat,
      countStarts ((DownloadManager.process_queue_trace cap jobs).take n) ≤
        countFinishes ((DownloadManager.process_queue_trace cap jobs).take n) + 1 := by
  induction jobs with
  | nil => intro n; simp [DownloadManager.process_queue_trace, countStarts, countFinishes]
  | cons j js ih =>
    intro n
    match n with
    | 0 => simp [countStarts, countFinishes]
    | 1 =>
      simp [DownloadManager.process_queue_trace, countStarts, countFinishes,
        List.take, List.filter]
    | Nat.succ (Nat.succ m) =>
      have := ih m
      simp only [DownloadManager.process_queue_trace, List.take, countStarts,
        countFinishes, List.filter, List.length_cons] at this ⊢
      omega

/-- C3: the queue-processing loop runs download jobs strictly one at a
time — in every prefix of its event trace at most one job has started and
not finished — and the trace is the same whatever value
`max_concurrent_downloads` holds, because the loop `await`s each
`worker.process_download` to completion before dequeuing the next
item. -/
theorem C3_sequential_queue_processor (cap capAlt : Nat) (jobs : List Nat) (n : Nat) :
    countStarts ((DownloadManager.process_queue_trace cap jobs).take n) ≤
      countFinishes ((DownloadManager.process_queue_trace cap jobs).take n) + 1 ∧
    DownloadManager.process_queue_trace cap jobs
      = DownloadManager.process_queue_trace capAlt jobs := by
  refine ⟨process_queue_trace_bound cap jobs n, ?_⟩
  induction jobs with
  | nil => rfl
  | cons j js ih => simp [DownloadManager.process_queue_trace, ih]

/-- What `DownloadManager.cleanup` did, step by step. -/
structure CleanupReport where
  ranBody : Bool
  joinTimedOut : Bool
  cancelledActive : List (Nat × String)
  dequeuedJobs : List QItem
  returned : Bool
deriving DecidableEq, Repr

/-- `DownloadManager.cleanup` (lines 329-361): return immediately if
never initialized; otherwise stop the processor flag and cancel the
queue-processor task (which therefore dequeues nothing further), wait
for `download_queue.join()` under a 5-second timeout — which must time
out whenever unfinished items remain, because the only consumer was just
cancelled — then cancel the tasks recorded in `active_downloads`, close
the session and return.  No queued item is dequeued, executed, or
cancelled by any of this. -/
def DownloadManager.cleanup (st : MState) : MState × CleanupReport :=
  if st.initialized then
    ({ st with
        processorRunning := false
        sessionOpen := false
        initialized := false },
      { ranBody := true
        joinTimedOut := st.unfinished != 0
        cancelledActive := (st.active.map fun e => e.2.map fun t => (e.1, t.1)).flatten
        dequeuedJobs := []
        returned := true })
  else (st, ⟨false, false, [], [], true⟩)

/-- C4: every submitted task is claimed to reach exactly one terminal
state, including tasks still queued at shutdown.  In the code `cleanup`
cancels the only queue processor and then waits on
`download_queue.join()`, which can no longer make progress; concretely,
submit one URL and run `cleanup`: it returns with the join timed out,
the job still sitting in the queue, nothing dequeued and nothing
cancelled (the `active_downloads` index is empty), so the queued task
never starts and reaches no terminal state — it is silently dropped.
Moreover `cleanup` never dequeues from any state. -/
theorem C4_queued_task_dropped_at_shutdown :
    ((DownloadManager.cleanup
        (runSubmits (DownloadManager.freshState 50 5) [⟨42, "url1"⟩]).1).2.returned
      = true ∧
    (DownloadManager.cleanup
        (runSubmits (DownloadManager.freshState 50 5) [⟨42, "url1"⟩]).1).2.joinTimedOut
      = true ∧
    (DownloadManager.cleanup
        (runSubmits (DownloadManager.freshState 50 5) [⟨42, "url1"⟩]).1).2.dequeuedJobs
      = [] ∧
    (DownloadManager.cleanup
        (runSubmits (DownloadManager.freshState 50 5) [⟨42, "url1"⟩]).1).2.cancelledActive
      = [] ∧
    (DownloadManager.cleanup
        (runSubmits (DownloadManager.freshState 50 5) [⟨42, "url1"⟩]).1).1.heap
      = [⟨0, 0⟩]) ∧
    ∀ st : MState, (DownloadManager.cleanup st).1.heap = st.heap ∧
      (DownloadManager.cleanup st).2.dequeuedJobs = [] := by
  refine ⟨by decide, ?_⟩
  intro st
  unfold DownloadManager.cleanup
  split <;> exact ⟨rfl, rfl⟩

/-! ## Shutdown timing: `DownloadManager.cleanup` awaits versus
`ZenloadBot.stop` (bot.py lines 94-141)

Durations are in seconds; `none` means the awaited operation never
completes.  `asyncio.wait_for(op, t)` completes in at most `t` seconds
(cancelling `op` and raising `TimeoutError`, which every caller below
catches and logs before proceeding), so a `wait_for`-guarded await is
always bounded; a bare `await` is bounded only if the operation is. -/

/-- Duration of `await asyncio.wait_for(op, timeout=t)` when `op` would
intrinsically take `d` (`none` = forever). -/
def boundedWait : Option Nat → Nat → Nat
  | some d, t => min d t
  | none, t => t

/-- Sequential composition of two awaited durations. -/
def seqD : Option Nat → Option Nat → Option Nat
  | some a, some b => some (a + b)
  | _, _ => none

/-- Environment for `DownloadManager.cleanup`'s awaits. -/
structure CleanupEnv where
  /-- Duration of `await self._queue_processor_task` (lines 337-341)
  after `cancel()`: the cancelled worker still runs its `finally` block,
  whose `await status_message.delete()` is a fresh gateway call with no
  timeout — `none` when that collaborator call never returns. -/
  processorAwait : Option Nat
  /-- Duration of `await self.session.close()` (line 359). -/
  sessionClose : Option Nat
deriving DecidableEq, Repr

/-- Total duration of `DownloadManager.cleanup` (lines 329-361): the bare
`await self._queue_processor_task`, then
`wait_for(download_queue.join(), 5.0)` — immediate when no unfinished
items remain, else the full 5-second timeout, since the only consumer
was just cancelled — then the session close.  Only the join is guarded
by a timeout. -/
def DownloadManager.cleanup_duration (env : CleanupEnv) (unfinished : Nat) :
    Option Nat :=
  seqD env.processorAwait
    (seqD (some (if unfinished = 0 then 0 else 5)) env.sessionClose)

/-- Environment for `ZenloadBot.stop`'s awaits (bot.py lines 102-135). -/
structure StopEnv where
  updaterStop : Option Nat
  cleanupEnv : CleanupEnv
  unfinished : Nat
  appRunning : Bool
  appStop : Option Nat
  appShutdown : Option Nat
deriving DecidableEq, Repr

/-- `ZenloadBot.stop` (bot.py lines 94-141): every await is wrapped in
`asyncio.wait_for` — updater stop (5 s), download-manager cleanup (10 s,
line 115), application stop (5 s) and shutdown (5 s, skipped when the
application is not running) — and every `TimeoutError` is caught and
logged before proceeding. -/
def ZenloadBot.stop_duration (env : StopEnv) : Nat :=
  boundedWait env.updaterStop 5 +
    boundedWait (DownloadManager.cleanup_duration env.cleanupEnv env.unfinished) 10 +
    (if env.appRunning then boundedWait env.appStop 5 + boundedWait env.appShutdown 5
      else 0)

/-- C8 counterexample: `DownloadManager.cleanup` itself does not always
return within its bounded timeouts — its `await` of the cancelled queue
processor has no timeout, so when the worker's cancellation path is
stuck in a collaborator call that never returns, `cleanup` never
returns. -/
theorem C8_counterexample_cleanup_hangs :
    DownloadManager.cleanup_duration ⟨none, some 0⟩ 0 = none ∧
    DownloadManager.cleanup_duration ⟨none, some 0⟩ 1 = none := by
  constructor <;> rfl

/-- C8 amended: shutdown at the bot level never hangs: `ZenloadBot.stop`
wraps the download-manager cleanup in a 10-second `asyncio.wait_for`
(and every other await in a 5-second one), catching and logging the
timeout and proceeding, so `stop` returns within 25 seconds for every
collaborator behaviour — including a worker stuck in a call that never
returns. -/
theorem C8_amended_bot_stop_bounded (env : StopEnv) :
    ZenloadBot.stop_duration env ≤ 25 := by
  have hb : ∀ (d : Option Nat) (t : Nat), boundedWait d t ≤ t := by
    intro d t; cases d <;> simp [boundedWait]
  have h1 := hb env.updaterStop 5
  have h2 := hb (DownloadManager.cleanup_duration env.cleanupEnv env.unfinished) 10
  have h3 := hb env.appStop 5
  have h4 := hb env.appShutdown 5
  unfold ZenloadBot.stop_duration
  split <;> omega

/-! ## Rate limiting per domain (lines 227-230)

`self.rate_limits = defaultdict(lambda: asyncio.Semaphore(10))` creates a
per-host semaphore of 10 slots lazily on first lookup and never removes
entries — but no statement in the repository ever acquires (or even
looks up) one of these semaphores, so they cap nothing. -/

/-- A lookup in the `rate_limits` defaultdict: a missing host is created
on the spot with capacity 10 (the `lambda: asyncio.Semaphore(10)`
factory); nothing is ever removed. -/
def rate_limits_get (m : List (String × Nat)) (host : String) :
    Nat × List (String × Nat) :=
  match m.find? fun e => e.1 == host with
  | some e => (e.2, m)
  | none => (10, m ++ [(host, 10)])

/-- C10: the `rate_limits` table does create host entries lazily with
the fixed slot count 10 and never removes them (lookups only ever extend
the table, and neither submission handling nor cleanup touches it) —
but the limiter caps nothing: no code path ever acquires a slot, so a
worker run performs outbound calls while holding no host slot for any
host, and in-flight calls per host are not bounded by the semaphores. -/
theorem C10_rate_limiter_never_acquired (env : WorkerEnv) (fs : Finset String)
    (m : List (String × Nat)) (host : String) (st : MState) (s : Submission)
    (hmiss : m.find? (fun e => e.1 == host) = none) :
    (∀ h, Eff.acquireHostSlot h ∉ (DownloadWorker.process_download env fs).effs) ∧
    Eff.downloadCall ∈ (DownloadWorker.process_download env fs).effs ∧
    rate_limits_get m host = (10, m ++ [(host, 10)]) ∧
    (∀ m' host', ∃ t, (rate_limits_get m' host').2 = m' ++ t) ∧
    (DownloadManager.process_download st s).1.rateLimits = st.rateLimits ∧
    (DownloadManager.cleanup st).1.rateLimits = st.rateLimits := by
  refine ⟨?_, ?_, ?_, ?_, ?_, ?_⟩
  · intro h
    rcases env with ⟨dl, send, rf, rg, u, d⟩
    cases dl <;> cases send <;>
      simp [DownloadWorker.process_download, try_phase]
  · rcases env with ⟨dl, send, rf, rg, u, d⟩
    cases dl <;> cases send <;>
      simp [DownloadWorker.process_download, try_phase]
  · simp [rate_limits_get, hmiss]
  · intro m' host'
    rcases hf : m'.find? fun e => e.1 == host' with _ | e
    · exact ⟨[(host', 10)], by simp [rate_limits_get, hf]⟩
    · exact ⟨[], by simp [rate_limits_get, hf]⟩
  · unfold DownloadManager.process_download
    simp only
    rw [show ∀ st0 : MState,
        (DownloadManager.ensure_initialized st0).rateLimits = st0.rateLimits from ?_]
    · split
      · rfl
      · rcases heappush (DownloadManager.ensure_initialized st).heap
            ⟨(activeFor (pruneActive (DownloadManager.ensure_initialized st).active)
                s.user).length,
              (DownloadManager.ensure_initialized st).nextWorkerId⟩ with ⟨h2, e⟩
        cases e <;> rfl
    · intro st0
      unfold DownloadManager.ensure_initialized
      split <;> rfl
  · unfold DownloadManager.cleanup
    split <;> rfl

/-- C10 witness: a fresh table, a concrete host, and a concrete worker
run: the host entry is created with capacity 10, and the worker acquires
no slot for it while making its outbound call. -/
theorem C10_rate_limiter_never_acquired_witness :
    (∀ h, Eff.acquireHostSlot h ∉
      (DownloadWorker.process_download
        ⟨.downloaded "clip.mp4", .sendOk, true, true, true, true⟩ ∅).effs) ∧
    rate_limits_get [] "instagram.com" = (10, [("instagram.com", 10)]) :=
  ⟨(C10_rate_limiter_never_acquired
      ⟨.downloaded "clip.mp4", .sendOk, true, true, true, true⟩ ∅ [] "instagram.com"
      (DownloadManager.freshState 50 5) ⟨1, "u"⟩ (by decide)).1,
    by
      have := (C10_rate_limiter_never_acquired
        ⟨.downloaded "clip.mp4", .sendOk, true, true, true, true⟩ ∅ [] "instagram.com"
        (DownloadManager.freshState 50 5) ⟨1, "u"⟩ (by decide)).2.2.1
      simpa using this⟩

end Zenload
